import Mathlib

set_option autoImplicit false

/-!
Verification development for the Complex DSL translation pipeline
(parser transformer, AST model, and statement compiler/interpreter).

The definitions below are a shallow embedding of `src/complex`:
`models.py` (AST value types), `parser.py` (the Lark transformer callbacks
that the claims mention), and `interpreter.py` (the statement compiler).
The external database gateway (`db.py`) is modelled as a function from the
emitted query text to either rows or a domain error, exactly the failure
taxonomy of `errors.py` (every exception leaving `DatabaseManager.run` is
mapped by `map_db_error` to one of ParseError / SemanticError /
ExecutionError / ConnectionError).
-/

namespace ComplexDSL

/-- Python-style runtime values as they occur in this interpreter:
property values, alias bindings and result-row cells.
`vNone` is Python's `None`. -/
inductive PyVal where
  | vStr (s : String)
  | vInt (n : Int)
  | vBool (b : Bool)
  | vNone
  | vList (xs : List PyVal)
  deriving Repr

/-- Python `str()` of a value, as used by f-string interpolation. -/
def pyStr : PyVal → String
  | .vStr s => s
  | .vInt n => toString n
  | .vBool b => if b then "True" else "False"
  | .vNone => "None"
  | .vList _ => "[...]"

/-- Python truthiness of a value. -/
def pyTruthy : PyVal → Bool
  | .vStr s => s ≠ ""
  | .vInt n => n ≠ 0
  | .vBool b => b
  | .vNone => false
  | .vList xs => !xs.isEmpty

/-- `v is None` in Python. -/
def PyVal.isNone : PyVal → Bool
  | .vNone => true
  | _ => false

/-- Insertion-ordered dictionary (Python `dict`) as an association list. -/
abbrev PyDict (α : Type) : Type := List (String × α)

/-- `k in d` for a Python dict. -/
def pyDictContains {α : Type} : PyDict α → String → Bool
  | [], _ => false
  | p :: ps, k => p.1 = k || pyDictContains ps k

/-- `d[k] = v` for a Python dict: overwrite the value in place when the
key exists (keys are unique), append otherwise, preserving insertion
order. -/
def pyDictSet {α : Type} : PyDict α → String → α → PyDict α
  | [], k, v => [(k, v)]
  | p :: ps, k, v => if p.1 = k then (k, v) :: ps else p :: pyDictSet ps k v

/-- `d.get(k)` returning `none` when the key is absent. -/
def pyDictGet {α : Type} : PyDict α → String → Option α
  | [], _ => none
  | p :: ps, k => if p.1 = k then some p.2 else pyDictGet ps k

/-- `d.get(k, default)`. -/
def pyDictGetD {α : Type} (d : PyDict α) (k : String) (v : α) : α :=
  (pyDictGet d k).getD v

/-! ### AST model (`models.py`) -/

/-- `DataType` from `models.py`. -/
structure DataType where
  name : String
  is_array : Bool := false
  deriving Repr

/-- `FieldDecl` from `models.py`. -/
structure FieldDecl where
  name : String
  data_type : DataType
  deriving Repr

/-- `EntityDef` from `models.py` (the Python field is `extends`, a Lean
keyword, hence the trailing underscore). -/
structure EntityDef where
  name : String
  fields : List FieldDecl
  extends_ : Option String := none
  deriving Repr

/-- `Multiplicity` from `models.py`. -/
structure Multiplicity where
  value : String
  deriving Repr

/-- `RelationshipDef` from `models.py`. -/
structure RelationshipDef where
  name : String
  from_entity : String
  to_entity : String
  from_mult : Option Multiplicity := none
  to_mult : Option Multiplicity := none
  fields : List FieldDecl := []
  deriving Repr

/-- `Literal` from `models.py`: a value plus its inferred kind tag
("string", "number", "boolean", "null"). -/
structure Literal where
  value : PyVal
  type : String
  deriving Repr

/-- The `Union[Literal, str, int, List[Literal]]` type of `Assignment.value`:
a literal, a bare alias name, a bare numeric id, or an array literal. -/
inductive AssignValue where
  | lit (l : Literal)
  | strRef (s : String)
  | intRef (n : Int)
  | arr (ls : List Literal)
  deriving Repr

/-- `Assignment` from `models.py`. -/
structure Assignment where
  field : String
  value : AssignValue
  deriving Repr

/-- `InsertEntity` from `models.py`. -/
structure InsertEntity where
  entity_type : String
  assignments : List Assignment
  alias_ : Option String := none
  deriving Repr

/-- The `Union[str, int]` reference type used by `ConnectRel.from_ref`,
`ConnectRel.to_ref` and `TargetRef.value`. -/
inductive RefVal where
  | intRef (n : Int)
  | strRef (s : String)
  deriving Repr

/-- Python `str()` of a `Union[str, int]` reference. -/
def refStr : RefVal → String
  | .intRef n => toString n
  | .strRef s => s

/-- `ConnectRel` from `models.py`. -/
structure ConnectRel where
  from_ref : RefVal
  relationship : String
  to_ref : RefVal
  properties : List Assignment := []
  deriving Repr

/-- `PropertyCondition` from `models.py`. -/
structure PropertyCondition where
  property : String
  value : Literal
  deriving Repr

/-- `Condition` from `models.py`: ordered property conditions joined by
the AND/OR operator list. -/
structure Condition where
  conditions : List PropertyCondition
  operators : List String := []
  deriving Repr

/-- `TargetRef` from `models.py`; `type` is one of "alias", "id",
"pattern" (kept as a string exactly as in the source, whose interpreter
has an explicit invalid-target-type branch). -/
structure TargetRef where
  type : String
  value : RefVal
  entity_type : Option String := none
  condition : Option Condition := none
  deriving Repr

/-- `UpdateStmt` from `models.py`. -/
structure UpdateStmt where
  target : TargetRef
  assignments : List Assignment
  deriving Repr

/-- `DeleteStmt` from `models.py`. -/
structure DeleteStmt where
  target : TargetRef
  deriving Repr

/-- `NodePattern` from `models.py`. -/
structure NodePattern where
  alias_ : Option String := none
  entity_type : String
  condition : Option Condition := none
  deriving Repr

/-- `EdgePattern` from `models.py`; `direction` is the raw direction
string ("->", "<-", or "bidirectional"). -/
structure EdgePattern where
  relationship : Option String := none
  condition : Option Condition := none
  direction : String
  deriving Repr

/-- `Pattern` from `models.py`. -/
structure Pattern where
  nodes : List NodePattern
  edges : List EdgePattern := []
  deriving Repr

/-- `ReturnItem` from `models.py`. -/
structure ReturnItem where
  alias_ : String
  property : Option String := none
  deriving Repr

/-- `QueryStmt` from `models.py`. -/
structure QueryStmt where
  pattern : Pattern
  where_ : Option Condition := none
  return_items : List ReturnItem := []
  deriving Repr

/-- The closed `Statement` union from `models.py`. -/
inductive Statement where
  | entityDef (d : EntityDef)
  | relationshipDef (d : RelationshipDef)
  | insertEntity (s : InsertEntity)
  | connectRel (s : ConnectRel)
  | updateStmt (s : UpdateStmt)
  | deleteStmt (s : DeleteStmt)
  | queryStmt (s : QueryStmt)
  deriving Repr

/-- `Program` from `models.py`. -/
structure Program where
  statements : List Statement
  deriving Repr

/-! ### Error taxonomy (`errors.py`) -/

/-- The `ComplexError` hierarchy of `errors.py` restricted to the classes
that can actually cross the interpreter/gateway boundary: `map_db_error`
only ever produces ParseError, SemanticError, ExecutionError or
ConnectionError, and the interpreter itself raises SemanticError. -/
inductive CErr where
  | parseErr (msg : String)
  | semanticErr (msg : String)
  | executionErr (msg : String)
  | connectionErr (msg : String)
  deriving Repr, DecidableEq

/-- Python `str(e)` of an error, as interpolated into the
"Unexpected execution error" wrapper (`ParseError.__str__` prepends
"Parse error: " when no position is available; the other classes print
their message). -/
def errStr : CErr → String
  | .parseErr m => "Parse error: " ++ m
  | .semanticErr m => m
  | .executionErr m => m
  | .connectionErr m => m

/-- A result row: a dict from column name to value. -/
abbrev Row : Type := PyDict PyVal

/-- The execution gateway (`db.run_cypher`): emitted query text in, rows
or a mapped database error out. -/
def Gateway : Type := String → Except CErr (List Row)

end ComplexDSL

namespace ComplexDSL

/-! ### Interpreter state (`ComplexInterpreter.__init__`) -/

/-- Session state owned by one `ComplexInterpreter` instance: the
configuration flag read once at construction, the schema registry
(`entities`, `relationships`), the alias table, plus — as the observation
of the gateway boundary — the ordered trace of query texts dispatched to
`run_cypher`. -/
structure InterpState where
  edge_references : Bool
  entities : PyDict EntityDef
  relationships : PyDict RelationshipDef
  aliases : PyDict PyVal
  trace : List String
  deriving Repr

/-- Dispatch one query text to the gateway, recording it in the trace. -/
def runCypher (g : Gateway) (st : InterpState) (q : String) :
    InterpState × Except CErr (List Row) :=
  ({ st with trace := st.trace ++ [q] }, g q)

/-! ### Value and reference resolution -/

/-- `_resolve_literal_value`: literals yield their value; a bare string is
looked up as an alias when bound and passed through unchanged otherwise;
ints pass through. (The array branch is Python's final `else`, returning
the value unchanged; it is represented by the list of literal values.) -/
def resolveLiteralValue (aliases : PyDict PyVal) : AssignValue → PyVal
  | .lit l => l.value
  | .strRef s =>
      if pyDictContains aliases s then pyDictGetD aliases s .vNone else .vStr s
  | .intRef n => .vInt n
  | .arr ls => .vList (ls.map (fun l => l.value))

/-- `_resolve_reference`: a numeric reference is the vertex identifier
itself; a string must be bound in the alias table, else SemanticError.
(The Python `else` branch for an invalid reference type is unreachable in
the typed model.) -/
def resolveReference (aliases : PyDict PyVal) : RefVal → Except CErr PyVal
  | .intRef n => .ok (.vInt n)
  | .strRef s =>
      if pyDictContains aliases s then .ok (pyDictGetD aliases s .vNone)
      else .error (.semanticErr ("Unknown alias: " ++ s))

/-! ### Query-text helpers -/

/-- `_format_literal_for_cypher`. -/
def formatLiteralForCypher (l : Literal) : String :=
  if l.type = "string" then "'" ++ pyStr l.value ++ "'"
  else if l.type = "null" then "null"
  else if l.type = "boolean" then (if pyTruthy l.value then "true" else "false")
  else pyStr l.value

/-- `_build_property_condition`. -/
def buildPropertyCondition (c : PropertyCondition) (node_alias : String) : String :=
  node_alias ++ "." ++ c.property ++ " = " ++ formatLiteralForCypher c.value

/-- `_build_condition_for_node`: the inline property-map filter text. -/
def buildConditionForNode (c : Condition) : String :=
  "\x7b" ++ String.intercalate ", "
    (c.conditions.map (fun pc => pc.property ++ ": " ++ formatLiteralForCypher pc.value))
  ++ "\x7d"

/-- The operator loop of `_build_condition_clause`: starting from the
first condition string, append " op next" for each operator while a next
condition string remains. -/
def joinWithOperators : String → List String → List String → String
  | acc, _, [] => acc
  | acc, [], _ :: _ => acc
  | acc, p :: ps, op :: ops => joinWithOperators (acc ++ " " ++ op ++ " " ++ p) ps ops

/-- `_build_condition_clause` (used for UPDATE/DELETE pattern targets):
`None` yields "true"; with a non-empty operator list the parts are joined
left-to-right by the operators; otherwise the parts are joined by " AND ".
(On the transformer-unreachable input of an empty condition list together
with a non-empty operator list Python raises IndexError; that corner is
the `[]` branch below.) -/
def buildConditionClause (cond : Option Condition) (node_alias : String) : String :=
  match cond with
  | none => "true"
  | some c =>
    let parts := c.conditions.map (fun pc => buildPropertyCondition pc node_alias)
    match c.operators, parts with
    | [], _ => String.intercalate " AND " parts
    | _ :: _, [] => ""
    | op :: ops, p :: ps => joinWithOperators p ps (op :: ops)

/-- Node serialization inside `_build_match_clause`
(`node.alias or 'n'`: a missing or empty alias falls back to "n"). -/
def nodeStr (node : NodePattern) : String :=
  let a := match node.alias_ with
    | some s => if s ≠ "" then s else "n"
    | none => "n"
  let base := "(" ++ a ++ ":" ++ node.entity_type
  let base := match node.condition with
    | some c => base ++ " " ++ buildConditionForNode c
    | none => base
  base ++ ")"

/-- Edge text of `_build_match_clause` before the direction is applied
(`if edge.relationship:` — a missing or empty relationship yields the
anonymous "-[]"). -/
def edgeBase (edge : EdgePattern) : String :=
  match edge.relationship with
  | some rel =>
    if rel ≠ "" then
      let s := "-[:" ++ rel
      let s := match edge.condition with
        | some c => s ++ " " ++ buildConditionForNode c
        | none => s
      s ++ "]"
    else "-[]"
  | none => "-[]"

/-- Direction application in `_build_match_clause`: "->" appends the
right arrowhead; "<-" replaces the leading dash by "<-" (nothing is
appended at the end); any other direction appends a plain dash. -/
def edgeStrOf (edge : EdgePattern) : String :=
  let s := edgeBase edge
  if edge.direction = "->" then s ++ "->"
  else if edge.direction = "<-" then "<-" ++ s.drop 1
  else s ++ "-"

/-- The node/edge interleaving loop of `_build_match_clause`: the i-th
node is followed by the i-th edge while edges remain. -/
def patternTextLoop : List NodePattern → List EdgePattern → String
  | [], _ => ""
  | n :: ns, [] => nodeStr n ++ patternTextLoop ns []
  | n :: ns, e :: es => nodeStr n ++ edgeStrOf e ++ patternTextLoop ns es

/-- `_build_match_clause`: SemanticError when the pattern has no nodes. -/
def buildMatchClause (p : Pattern) : Except CErr String :=
  if p.nodes.isEmpty then .error (.semanticErr "Pattern must have at least one node")
  else .ok ("MATCH " ++ patternTextLoop p.nodes p.edges)

/-- JSON string escaping (the delimiters occurring in this value domain),
implemented structurally over the character list so that it evaluates by
reduction. -/
def jsonEscape (s : String) : String :=
  String.mk (s.toList.foldr (fun c acc =>
    (if c = '\\' then ['\\', '\\']
     else if c = '"' then ['\\', '"']
     else [c]) ++ acc) [])

mutual

/-- `json.dumps` on one property value. -/
def jsonOfVal : PyVal → String
  | .vStr s => "\"" ++ jsonEscape s ++ "\""
  | .vInt n => toString n
  | .vBool b => if b then "true" else "false"
  | .vNone => "null"
  | .vList xs => "[" ++ String.intercalate ", " (jsonOfList xs) ++ "]"

/-- `json.dumps` rendering of each element of a list value. -/
def jsonOfList : List PyVal → List String
  | [] => []
  | x :: xs => jsonOfVal x :: jsonOfList xs

end

/-- `json.dumps` on a property dict (default separators). -/
def jsonDumps (d : PyDict PyVal) : String :=
  "\x7b" ++ String.intercalate ", "
    (d.map (fun p => "\"" ++ jsonEscape p.1 ++ "\": " ++ jsonOfVal p.2)) ++ "\x7d"

end ComplexDSL

namespace ComplexDSL

/-! ### Per-statement execution (`interpreter.py`) -/

/-- The "create label" query of `_execute_entity_def`. -/
def createLabelQuery (d : EntityDef) : String := "CREATE (:" ++ d.name ++ ")"

/-- `_execute_entity_def`: register the schema, emit the create-label op,
swallow exactly the `ExecutionError` class from it ("label might already
exist"), propagate every other failure. -/
def execEntityDef (g : Gateway) (d : EntityDef) (st : InterpState) :
    InterpState × Except CErr (Option (List Row)) :=
  let st1 := { st with entities := pyDictSet st.entities d.name d }
  let (st2, r) := runCypher g st1 (createLabelQuery d)
  match r with
  | .ok _ => (st2, .ok none)
  | .error (.executionErr _) => (st2, .ok none)
  | .error e => (st2, .error e)

/-- `_execute_relationship_def`: register only; no store-side operation. -/
def execRelationshipDef (d : RelationshipDef) (st : InterpState) :
    InterpState × Except CErr (Option (List Row)) :=
  ({ st with relationships := pyDictSet st.relationships d.name d }, .ok none)

/-- The property dict built by `_execute_insert_entity`: user assignments
placed in order, then the synthesized identifier written under "id"
(overwriting in place when the key already exists). -/
def buildInsertProps (aliases : PyDict PyVal) (assigns : List Assignment)
    (vertex_id : String) : PyDict PyVal :=
  let props := assigns.foldl
    (fun ps a => pyDictSet ps a.field (resolveLiteralValue aliases a.value)) []
  pyDictSet props "id" (.vStr vertex_id)

/-- The "create node" query of `_execute_insert_entity`. -/
def insertQuery (entity_type : String) (props : PyDict PyVal) : String :=
  "CREATE (n:" ++ entity_type ++ " " ++ jsonDumps props ++ ") RETURN id(n)"

/-- `_execute_insert_entity`. `uuid c` is the identifier produced by the
`c`-th call to `uuid4()`; the counter advances exactly where Python calls
`uuid4()` (after the entity-type check). A non-empty result row binds the
alias (when one is given and truthy) to `row.get('id(n)',
row.get('result'))`. -/
def execInsertEntity (g : Gateway) (uuid : Nat → String) (s : InsertEntity)
    (st : InterpState) (c : Nat) :
    (InterpState × Nat) × Except CErr (Option (List Row)) :=
  if ¬ pyDictContains st.entities s.entity_type then
    ((st, c), .error (.semanticErr ("Unknown entity type: " ++ s.entity_type)))
  else
    let props := buildInsertProps st.aliases s.assignments (uuid c)
    let (st1, r) := runCypher g st (insertQuery s.entity_type props)
    match r with
    | .error e => ((st1, c + 1), .error e)
    | .ok [] => ((st1, c + 1), .ok none)
    | .ok (row0 :: _) =>
      let vertex_db_id := pyDictGetD row0 "id(n)" (pyDictGetD row0 "result" .vNone)
      match s.alias_ with
      | some a =>
        if a ≠ "" then
          (({ st1 with aliases := pyDictSet st1.aliases a vertex_db_id }, c + 1), .ok none)
        else ((st1, c + 1), .ok none)
      | none => ((st1, c + 1), .ok none)

/-- Connect query text with a property map, with the multi-line f-string
whitespace of `_execute_connect_rel`. -/
def connectQueryProps (from_id to_id : PyVal) (rel : String) (props_json : String) :
    String :=
  "\n            MATCH (a), (b) \n            WHERE id(a) = " ++ pyStr from_id ++
  " AND id(b) = " ++ pyStr to_id ++
  "\n            CREATE (a)-[r:" ++ rel ++ " " ++ props_json ++
  "]->(b)\n            RETURN r\n            "

/-- Connect query text without properties. -/
def connectQueryNoProps (from_id to_id : PyVal) (rel : String) : String :=
  "\n            MATCH (a), (b) \n            WHERE id(a) = " ++ pyStr from_id ++
  " AND id(b) = " ++ pyStr to_id ++
  "\n            CREATE (a)-[r:" ++ rel ++
  "]->(b)\n            RETURN r\n            "

/-- `_execute_connect_rel`: the relationship-registry check comes first,
then from/to reference resolution, then property resolution and the
create-edge op. -/
def execConnectRel (g : Gateway) (s : ConnectRel) (st : InterpState) :
    InterpState × Except CErr (Option (List Row)) :=
  if ¬ pyDictContains st.relationships s.relationship then
    (st, .error (.semanticErr ("Unknown relationship type: " ++ s.relationship)))
  else
    match resolveReference st.aliases s.from_ref with
    | .error e => (st, .error e)
    | .ok from_id =>
      match resolveReference st.aliases s.to_ref with
      | .error e => (st, .error e)
      | .ok to_id =>
        let props := s.properties.foldl
          (fun ps a => pyDictSet ps a.field (resolveLiteralValue st.aliases a.value)) []
        let q := if ¬ props.isEmpty then
            connectQueryProps from_id to_id s.relationship (jsonDumps props)
          else
            connectQueryNoProps from_id to_id s.relationship
        let (st1, r) := runCypher g st q
        match r with
        | .error e => (st1, .error e)
        | .ok _ => (st1, .ok none)

/-- One SET item of `_execute_update_stmt`: string values single-quoted,
everything else in `json.dumps` form. -/
def setClauseItem (aliases : PyDict PyVal) (a : Assignment) : String :=
  match resolveLiteralValue aliases a.value with
  | .vStr v => "n." ++ a.field ++ " = '" ++ v ++ "'"
  | v => "n." ++ a.field ++ " = " ++ jsonOfVal v

/-- WHERE-clause construction shared verbatim by `_execute_update_stmt`
and `_execute_delete_stmt`: an alias target is looked up with `dict.get`
(an unbound alias raises SemanticError), an id target is used directly,
a pattern target compiles its condition, anything else is an invalid
target type. -/
def targetWhereClause (aliases : PyDict PyVal) (t : TargetRef) : Except CErr String :=
  if t.type = "alias" then
    let vertex_id := match t.value with
      | .strRef s2 => pyDictGetD aliases s2 .vNone
      | .intRef _ => .vNone
    if vertex_id.isNone then
      .error (.semanticErr ("Unknown alias: " ++ refStr t.value))
    else .ok ("id(n) = " ++ pyStr vertex_id)
  else if t.type = "id" then .ok ("id(n) = " ++ refStr t.value)
  else if t.type = "pattern" then .ok (buildConditionClause t.condition "n")
  else .error (.semanticErr ("Invalid target type: " ++ t.type))

/-- Update query text, with the multi-line f-string whitespace of
`_execute_update_stmt`. -/
def updateQuery (entity_type : Option String) (where_clause set_clause : String) :
    String :=
  "\n        MATCH (n:" ++ (match entity_type with | some t => t | none => "") ++
  ")\n        WHERE " ++ where_clause ++
  "\n        SET " ++ set_clause ++
  "\n        RETURN n\n        "

/-- `_execute_update_stmt` (the SET clause is built before the target is
resolved, mirroring the source order; only the target resolution can
fail before the gateway call). -/
def execUpdateStmt (g : Gateway) (s : UpdateStmt) (st : InterpState) :
    InterpState × Except CErr (Option (List Row)) :=
  let set_clause := String.intercalate ", " (s.assignments.map (setClauseItem st.aliases))
  match targetWhereClause st.aliases s.target with
  | .error e => (st, .error e)
  | .ok where_clause =>
    let (st1, r) := runCypher g st (updateQuery s.target.entity_type where_clause set_clause)
    match r with
    | .error e => (st1, .error e)
    | .ok _ => (st1, .ok none)

/-- Delete query text, with the multi-line f-string whitespace of
`_execute_delete_stmt`. -/
def deleteQuery (entity_type : Option String) (where_clause : String) : String :=
  "\n        MATCH (n:" ++ (match entity_type with | some t => t | none => "") ++
  ")\n        WHERE " ++ where_clause ++
  "\n        DETACH DELETE n\n        "

/-- `_execute_delete_stmt`. -/
def execDeleteStmt (g : Gateway) (s : DeleteStmt) (st : InterpState) :
    InterpState × Except CErr (Option (List Row)) :=
  match targetWhereClause st.aliases s.target with
  | .error e => (st, .error e)
  | .ok where_clause =>
    let (st1, r) := runCypher g st (deleteQuery s.target.entity_type where_clause)
    match r with
    | .error e => (st1, .error e)
    | .ok _ => (st1, .ok none)

/-- WHERE clause of `_execute_query_stmt`: every property condition is
rendered against the fixed node alias "n" and the parts are joined by
" AND " — the condition's operator list is not consulted on this path. -/
def queryWhereClause (w : Option Condition) : String :=
  match w with
  | none => ""
  | some c =>
    let where_conditions := c.conditions.map (fun pc => buildPropertyCondition pc "n")
    if where_conditions.isEmpty then ""
    else "WHERE " ++ String.intercalate " AND " where_conditions

/-- RETURN clause of `_execute_query_stmt` (`if item.property:` — a
missing or empty property projects the bare alias). -/
def returnClauseOf (items : List ReturnItem) : String :=
  match items with
  | [] => "RETURN *"
  | _ =>
    "RETURN " ++ String.intercalate ", " (items.map (fun it =>
      match it.property with
      | some p => if p ≠ "" then it.alias_ ++ "." ++ p else it.alias_
      | none => it.alias_))

/-- Python `str.strip` (whitespace removed from both ends), implemented
structurally over the character list so that it evaluates by reduction. -/
def pyStrip (s : String) : String :=
  String.mk (((s.toList.dropWhile Char.isWhitespace).reverse.dropWhile
    Char.isWhitespace).reverse)

/-- The full query text assembled by `_execute_query_stmt`. -/
def queryStmtText (s : QueryStmt) : Except CErr String :=
  match buildMatchClause s.pattern with
  | .error e => .error e
  | .ok match_clause =>
    .ok (pyStrip (match_clause ++ " " ++ queryWhereClause s.where_ ++ " " ++
      returnClauseOf s.return_items))

/-- `_execute_query_stmt`: emit the query and return its rows
(`results or []`). -/
def execQueryStmt (g : Gateway) (s : QueryStmt) (st : InterpState) :
    InterpState × Except CErr (Option (List Row)) :=
  match queryStmtText s with
  | .error e => (st, .error e)
  | .ok q =>
    let (st1, r) := runCypher g st q
    match r with
    | .error e => (st1, .error e)
    | .ok rows => (st1, .ok (some rows))

/-- `_execute_statement`: dispatch over the closed statement union. -/
def execStatement (g : Gateway) (uuid : Nat → String) (s : Statement)
    (st : InterpState) (c : Nat) :
    (InterpState × Nat) × Except CErr (Option (List Row)) :=
  match s with
  | .entityDef d => let p := execEntityDef g d st; ((p.1, c), p.2)
  | .relationshipDef d => let p := execRelationshipDef d st; ((p.1, c), p.2)
  | .insertEntity i => execInsertEntity g uuid i st c
  | .connectRel s2 => let p := execConnectRel g s2 st; ((p.1, c), p.2)
  | .updateStmt s2 => let p := execUpdateStmt g s2 st; ((p.1, c), p.2)
  | .deleteStmt s2 => let p := execDeleteStmt g s2 st; ((p.1, c), p.2)
  | .queryStmt s2 => let p := execQueryStmt g s2 st; ((p.1, c), p.2)

/-- The statement loop of `execute`: non-`None` results accumulate in
statement order; the first error stops the loop at once. -/
def runStatements (g : Gateway) (uuid : Nat → String) :
    List Statement → InterpState → Nat → List Row →
    (InterpState × Nat) × Except CErr (List Row)
  | [], st, c, acc => ((st, c), .ok acc)
  | s :: rest, st, c, acc =>
    match execStatement g uuid s st c with
    | ((st1, c1), .error e) => ((st1, c1), .error e)
    | ((st1, c1), .ok none) => runStatements g uuid rest st1 c1 acc
    | ((st1, c1), .ok (some rows)) => runStatements g uuid rest st1 c1 (acc ++ rows)

/-- The `except` clause of `execute`: SemanticError and ExecutionError are
re-raised unchanged, anything else is wrapped into
`ExecutionError("Unexpected execution error: " + str(e))`. -/
def wrapErr : CErr → CErr
  | .semanticErr m => .semanticErr m
  | .executionErr m => .executionErr m
  | e => .executionErr ("Unexpected execution error: " ++ errStr e)

/-- `ComplexInterpreter.execute`, with the parse step abstracted to its
outcome (`parser.parse` either yields a `Program` or raises `ParseError`).
On a parse failure nothing else happens; otherwise the alias table is
cleared — the schema registry is untouched — and the statements run in
order under the error-wrapping policy of the `except` clause. -/
def execute (g : Gateway) (uuid : Nat → String) (parsed : Except String Program)
    (st : InterpState) (c : Nat) : (InterpState × Nat) × Except CErr (List Row) :=
  match parsed with
  | .error m => ((st, c), .error (.parseErr m))
  | .ok prog =>
    match runStatements g uuid prog.statements { st with aliases := [] } c [] with
    | ((st1, c1), .ok rows) => ((st1, c1), .ok rows)
    | ((st1, c1), .error e) => ((st1, c1), .error (wrapErr e))

end ComplexDSL

namespace ComplexDSL

/-! ### Transformer callbacks (`parser.py`) needed by the claims -/

/-- An item of the transformed `edge_spec` list handed to
`ComplexTransformer.edge_pat`: a relationship-name string or an inline
`Condition`. -/
inductive SpecItem where
  | rel (s : String)
  | cond (c : Condition)
  deriving Repr

/-- The loop over `edge_spec` items in `ComplexTransformer.edge_pat`:
a string sets the relationship, anything else sets the condition (later
items win). -/
def foldEdgeSpec (l : List SpecItem) : Option String × Option Condition :=
  l.foldl (fun acc it =>
    match it with
    | .rel s => (some s, acc.2)
    | .cond c => (acc.1, some c)) (none, none)

/-- `ComplexTransformer.edge_pat` on its grammar shape
`[edge_spec, direction?]` (with `maybe_placeholders` a missing direction
arrives as `None`): a missing or falsy (empty-string) direction item
defaults to "bidirectional". -/
def edgePat (spec : List SpecItem) (dir : Option String) : EdgePattern :=
  let rc := foldEdgeSpec spec
  let direction := match dir with
    | some s => if s ≠ "" then s else "bidirectional"
    | none => "bidirectional"
  { relationship := rc.1, condition := rc.2, direction := direction }

/-- `ComplexTransformer.direction`: an empty production defaults to
"bidirectional", otherwise the token text is kept. -/
def directionOf (items : List String) : String :=
  match items with
  | [] => "bidirectional"
  | s :: _ => s

/-- Modelled from the spec: the direction lexemes of `grammar.lark` (the
grammar file is loaded from disk by `ComplexParser.__init__` and is not
among the sources). Per the spec a left-pointing arrow is the `backward`
direction and the mirror arrow is `forward`, and the interpreter compares
the transformed token text against "<-" and "->", so the lexemes are the
arrow texts themselves. -/
def leftArrowToken : String := "<-"

/-- Modelled from the spec: the right-pointing (forward) arrow lexeme of
`grammar.lark`; see `leftArrowToken`. -/
def rightArrowToken : String := "->"

/-- An item handed to `ComplexTransformer.pattern`: a transformed node
pattern, a transformed edge pattern, or a leftover parse-tree object
(which the callback skips). -/
inductive TransItem where
  | node (n : NodePattern)
  | edge (e : EdgePattern)
  | tree
  deriving Repr

/-- The `valid_items` filter of `ComplexTransformer.pattern`. -/
def validItems (items : List TransItem) : List TransItem :=
  items.filter (fun it => match it with
    | .node _ => true
    | .edge _ => true
    | .tree => false)

/-- The index loop of `ComplexTransformer.pattern` over `valid_items[1:]`,
two positions at a time: position `i` contributes an edge when it holds an
`EdgePattern`, position `i+1` contributes a node when it holds a
`NodePattern` (the two checks are independent). -/
def patternPairs : List TransItem → List EdgePattern × List NodePattern
  | [] => ([], [])
  | [x] => ((match x with | .edge e => [e] | _ => []), [])
  | x :: y :: rest =>
    let p := patternPairs rest
    ((match x with | .edge e => e :: p.1 | _ => p.1),
     (match y with | .node n => n :: p.2 | _ => p.2))

/-- `ComplexTransformer.pattern`: filter the valid items, seed the node
list with the first item when it is a node, then run the paired loop. -/
def transformPattern (items : List TransItem) : Pattern :=
  match validItems items with
  | [] => { nodes := [], edges := [] }
  | first :: rest =>
    let first_nodes := match first with
      | .node n => [n]
      | _ => []
    let p := patternPairs rest
    { nodes := first_nodes ++ p.2, edges := p.1 }

/-- A parsed fully-connected chain, as handed to
`ComplexTransformer.pattern`: transformed node and edge patterns in
strict alternation, starting and ending with a node. -/
inductive IsChain : List TransItem → Prop
  | single (n : NodePattern) : IsChain [TransItem.node n]
  | cons (n : NodePattern) (e : EdgePattern) {rest : List TransItem}
      (h : IsChain rest) : IsChain (TransItem.node n :: TransItem.edge e :: rest)

end ComplexDSL

namespace ComplexDSL

/-! ### Concrete fixtures used by the closed evaluations below -/

/-- A fresh interpreter state (`ComplexInterpreter.__init__` with the
edge-reference flag on). -/
def st0 : InterpState :=
  { edge_references := true, entities := [], relationships := [], aliases := [],
    trace := [] }

/-- The entity definition parsed from `ENTITY Foo { x: STRING };`. -/
def fooDef : EntityDef :=
  { name := "Foo", fields := [{ name := "x", data_type := { name := "STRING" } }] }

/-- A state in which `Foo` is already registered (as after an earlier
`execute` call). -/
def stWithFoo : InterpState := { st0 with entities := [("Foo", fooDef)] }

/-- A gateway on which every query succeeds with no rows. -/
def gOK0 : Gateway := fun _ => .ok []

/-- A gateway on which every query fails with a connectivity error
(`map_db_error` on SQLSTATE 08xxx yields `ConnectionError`). -/
def gConnDown : Gateway := fun _ => .error (.connectionErr "db down")

/-- A gateway on which every query fails with the "label already exists"
`ExecutionError` class. -/
def gLabelExists : Gateway := fun _ => .error (.executionErr "label already exists")

/-- A deterministic stand-in for the `uuid4()` stream. -/
def uuidGen0 : Nat → String := fun n => "uuid-" ++ toString n

/-- `ENTITY Foo { x: STRING };` as a one-statement program. -/
def progFoo : Program := { statements := [Statement.entityDef fooDef] }

/-- The same ENTITY statement twice in one script. -/
def progFooTwice : Program :=
  { statements := [Statement.entityDef fooDef, Statement.entityDef fooDef] }

/-- `UPDATE missing_alias SET x = 1;`. -/
def updMissing : UpdateStmt :=
  { target := { type := "alias", value := RefVal.strRef "missing_alias" },
    assignments :=
      [{ field := "x",
         value := AssignValue.lit { value := PyVal.vInt 1, type := "number" } }] }

/-- `INSERT Ghost { x = 1 };` (no `ENTITY Ghost` registered). -/
def ghostInsert : InsertEntity :=
  { entity_type := "Ghost",
    assignments :=
      [{ field := "x",
         value := AssignValue.lit { value := PyVal.vInt 1, type := "number" } }] }

/-- `CONNECT a - NOPE -> b;` (no `RELATIONSHIP NOPE` registered). -/
def nopeConnect : ConnectRel :=
  { from_ref := RefVal.strRef "a", relationship := "NOPE",
    to_ref := RefVal.strRef "b" }

/-- A WHERE condition `a = 1 OR b = 2` (operator list `["OR"]`). -/
def orCond0 : Condition :=
  { conditions :=
      [{ property := "a", value := { value := PyVal.vInt 1, type := "number" } },
       { property := "b", value := { value := PyVal.vInt 2, type := "number" } }],
    operators := ["OR"] }

/-- `MATCH (n:T) WHERE n.a = 1 OR n.b = 2;` (no RETURN list). -/
def queryOr0 : QueryStmt :=
  { pattern := { nodes := [{ entity_type := "T" }] }, where_ := some orCond0 }

/-- The two-node pattern `(a:A)?(b:B)` with a backward edge. -/
def patBack0 : Pattern :=
  { nodes := [{ alias_ := some "a", entity_type := "A" },
              { alias_ := some "b", entity_type := "B" }],
    edges := [{ direction := "<-" }] }

/-- The same two-node pattern with a forward edge. -/
def patFwd0 : Pattern :=
  { nodes := [{ alias_ := some "a", entity_type := "A" },
              { alias_ := some "b", entity_type := "B" }],
    edges := [{ direction := "->" }] }

/-- The same two-node pattern with a bidirectional edge. -/
def patBidi0 : Pattern :=
  { nodes := [{ alias_ := some "a", entity_type := "A" },
              { alias_ := some "b", entity_type := "B" }],
    edges := [{ direction := "bidirectional" }] }

/-- `INSERT Foo { id = 999 } AS f1;` — an insert that explicitly assigns
the reserved field "id". -/
def insertWithId : InsertEntity :=
  { entity_type := "Foo",
    assignments :=
      [{ field := "id",
         value := AssignValue.lit { value := PyVal.vInt 999, type := "number" } }],
    alias_ := some "f1" }

/-- A three-item fully-connected chain `(a:A)-[]->(b:B)` as handed to
`ComplexTransformer.pattern`. -/
def chain3 : List TransItem :=
  [TransItem.node { alias_ := some "a", entity_type := "A" },
   TransItem.edge { direction := "->" },
   TransItem.node { alias_ := some "b", entity_type := "B" }]

end ComplexDSL

namespace ComplexDSL

/-! ### Helper lemmas: dictionaries -/

theorem pyDictGet_set_self {α : Type} (d : PyDict α) (k : String) (v : α) :
    pyDictGet (pyDictSet d k v) k = some v := by
  induction d with
  | nil => simp [pyDictSet, pyDictGet]
  | cons p ps ih =>
    by_cases h : p.1 = k <;> simp [pyDictSet, pyDictGet, h, ih]

theorem pyDictContains_set_mono {α : Type} (d : PyDict α) (k k' : String) (v : α)
    (h : pyDictContains d k' = true) :
    pyDictContains (pyDictSet d k v) k' = true := by
  induction d with
  | nil => simp [pyDictContains] at h
  | cons p ps ih =>
    simp only [pyDictContains, Bool.or_eq_true, decide_eq_true_eq] at h
    simp only [pyDictSet]
    by_cases hk : p.1 = k
    · rw [if_pos hk]
      simp only [pyDictContains, Bool.or_eq_true, decide_eq_true_eq]
      rcases h with h | h
      · exact Or.inl (by rw [← hk]; exact h)
      · exact Or.inr h
    · rw [if_neg hk]
      simp only [pyDictContains, Bool.or_eq_true, decide_eq_true_eq]
      rcases h with h | h
      · exact Or.inl h
      · exact Or.inr (ih h)

theorem pyDictGet_eq_none_of_not_contains {α : Type} (d : PyDict α) (k : String)
    (h : pyDictContains d k = false) : pyDictGet d k = none := by
  induction d with
  | nil => rfl
  | cons p ps ih =>
    simp only [pyDictContains, Bool.or_eq_false_iff, decide_eq_false_iff_not] at h
    simp [pyDictGet, h.1, ih h.2]

theorem pyDictGet_of_contains {α : Type} (d : PyDict α) (k : String)
    (h : pyDictContains d k = true) : ∃ v, pyDictGet d k = some v := by
  induction d with
  | nil => simp [pyDictContains] at h
  | cons p ps ih =>
    simp only [pyDictContains, Bool.or_eq_true, decide_eq_true_eq] at h
    by_cases hk : p.1 = k
    · exact ⟨p.2, by simp [pyDictGet, hk]⟩
    · rcases h with h | h
      · exact absurd h hk
      · rcases ih h with ⟨v, hv⟩
        exact ⟨v, by simp [pyDictGet, hk, hv]⟩

end ComplexDSL

namespace ComplexDSL

/-! ### Helper lemmas: state shape of the statement executors -/

theorem execEntityDef_fst (g : Gateway) (d : EntityDef) (st : InterpState) :
    (execEntityDef g d st).1 =
      { st with entities := pyDictSet st.entities d.name d,
                trace := st.trace ++ [createLabelQuery d] } := by
  simp only [execEntityDef, runCypher]
  rcases g (createLabelQuery d) with e | v
  · cases e <;> rfl
  · rfl

theorem execRelationshipDef_fst (d : RelationshipDef) (st : InterpState) :
    (execRelationshipDef d st).1 =
      { st with relationships := pyDictSet st.relationships d.name d } := rfl

theorem execInsertEntity_schema (g : Gateway) (u : Nat → String) (s : InsertEntity)
    (st : InterpState) (c : Nat) :
    (execInsertEntity g u s st c).1.1.entities = st.entities ∧
    (execInsertEntity g u s st c).1.1.relationships = st.relationships := by
  simp only [execInsertEntity, runCypher]
  repeat' split
  all_goals simp

theorem execConnectRel_schema (g : Gateway) (s : ConnectRel) (st : InterpState) :
    (execConnectRel g s st).1.entities = st.entities ∧
    (execConnectRel g s st).1.relationships = st.relationships ∧
    (execConnectRel g s st).1.aliases = st.aliases := by
  simp only [execConnectRel, runCypher]
  repeat' split
  all_goals simp

theorem execUpdateStmt_schema (g : Gateway) (s : UpdateStmt) (st : InterpState) :
    (execUpdateStmt g s st).1.entities = st.entities ∧
    (execUpdateStmt g s st).1.relationships = st.relationships ∧
    (execUpdateStmt g s st).1.aliases = st.aliases := by
  simp only [execUpdateStmt, runCypher]
  repeat' split
  all_goals simp

theorem execDeleteStmt_schema (g : Gateway) (s : DeleteStmt) (st : InterpState) :
    (execDeleteStmt g s st).1.entities = st.entities ∧
    (execDeleteStmt g s st).1.relationships = st.relationships ∧
    (execDeleteStmt g s st).1.aliases = st.aliases := by
  simp only [execDeleteStmt, runCypher]
  repeat' split
  all_goals simp

theorem execQueryStmt_schema (g : Gateway) (s : QueryStmt) (st : InterpState) :
    (execQueryStmt g s st).1.entities = st.entities ∧
    (execQueryStmt g s st).1.relationships = st.relationships ∧
    (execQueryStmt g s st).1.aliases = st.aliases := by
  simp only [execQueryStmt, runCypher]
  repeat' split
  all_goals simp

theorem execStatement_entities_mono (g : Gateway) (u : Nat → String) (s : Statement)
    (st : InterpState) (c : Nat) (k : String)
    (h : pyDictContains st.entities k = true) :
    pyDictContains (execStatement g u s st c).1.1.entities k = true := by
  cases s with
  | entityDef d =>
    show pyDictContains (execEntityDef g d st).1.entities k = true
    rw [execEntityDef_fst]
    exact pyDictContains_set_mono _ _ _ _ h
  | relationshipDef d => exact h
  | insertEntity i =>
    rw [show (execStatement g u (.insertEntity i) st c).1.1 =
      (execInsertEntity g u i st c).1.1 from rfl,
      (execInsertEntity_schema g u i st c).1]
    exact h
  | connectRel s2 =>
    rw [show (execStatement g u (.connectRel s2) st c).1.1 =
      (execConnectRel g s2 st).1 from rfl, (execConnectRel_schema g s2 st).1]
    exact h
  | updateStmt s2 =>
    rw [show (execStatement g u (.updateStmt s2) st c).1.1 =
      (execUpdateStmt g s2 st).1 from rfl, (execUpdateStmt_schema g s2 st).1]
    exact h
  | deleteStmt s2 =>
    rw [show (execStatement g u (.deleteStmt s2) st c).1.1 =
      (execDeleteStmt g s2 st).1 from rfl, (execDeleteStmt_schema g s2 st).1]
    exact h
  | queryStmt s2 =>
    rw [show (execStatement g u (.queryStmt s2) st c).1.1 =
      (execQueryStmt g s2 st).1 from rfl, (execQueryStmt_schema g s2 st).1]
    exact h

theorem execStatement_relationships_mono (g : Gateway) (u : Nat → String)
    (s : Statement) (st : InterpState) (c : Nat) (k : String)
    (h : pyDictContains st.relationships k = true) :
    pyDictContains (execStatement g u s st c).1.1.relationships k = true := by
  cases s with
  | entityDef d =>
    show pyDictContains (execEntityDef g d st).1.relationships k = true
    rw [execEntityDef_fst]
    exact h
  | relationshipDef d =>
    show pyDictContains (execRelationshipDef d st).1.relationships k = true
    rw [execRelationshipDef_fst]
    exact pyDictContains_set_mono _ _ _ _ h
  | insertEntity i =>
    rw [show (execStatement g u (.insertEntity i) st c).1.1 =
      (execInsertEntity g u i st c).1.1 from rfl,
      (execInsertEntity_schema g u i st c).2]
    exact h
  | connectRel s2 =>
    rw [show (execStatement g u (.connectRel s2) st c).1.1 =
      (execConnectRel g s2 st).1 from rfl, (execConnectRel_schema g s2 st).2.1]
    exact h
  | updateStmt s2 =>
    rw [show (execStatement g u (.updateStmt s2) st c).1.1 =
      (execUpdateStmt g s2 st).1 from rfl, (execUpdateStmt_schema g s2 st).2.1]
    exact h
  | deleteStmt s2 =>
    rw [show (execStatement g u (.deleteStmt s2) st c).1.1 =
      (execDeleteStmt g s2 st).1 from rfl, (execDeleteStmt_schema g s2 st).2.1]
    exact h
  | queryStmt s2 =>
    rw [show (execStatement g u (.queryStmt s2) st c).1.1 =
      (execQueryStmt g s2 st).1 from rfl, (execQueryStmt_schema g s2 st).2.1]
    exact h

theorem runStatements_entities_mono (g : Gateway) (u : Nat → String)
    (l : List Statement) :
    ∀ (st : InterpState) (c : Nat) (acc : List Row) (k : String),
      pyDictContains st.entities k = true →
      pyDictContains (runStatements g u l st c acc).1.1.entities k = true := by
  induction l with
  | nil => intro st c acc k h; exact h
  | cons s rest ih =>
    intro st c acc k h
    have hs := execStatement_entities_mono g u s st c k h
    simp only [runStatements]
    rcases hr : execStatement g u s st c with ⟨⟨st1, c1⟩, r⟩
    rw [hr] at hs
    cases r with
    | error e => exact hs
    | ok o =>
      cases o with
      | none => exact ih st1 c1 acc k hs
      | some rows => exact ih st1 c1 (acc ++ rows) k hs

theorem runStatements_relationships_mono (g : Gateway) (u : Nat → String)
    (l : List Statement) :
    ∀ (st : InterpState) (c : Nat) (acc : List Row) (k : String),
      pyDictContains st.relationships k = true →
      pyDictContains (runStatements g u l st c acc).1.1.relationships k = true := by
  induction l with
  | nil => intro st c acc k h; exact h
  | cons s rest ih =>
    intro st c acc k h
    have hs := execStatement_relationships_mono g u s st c k h
    simp only [runStatements]
    rcases hr : execStatement g u s st c with ⟨⟨st1, c1⟩, r⟩
    rw [hr] at hs
    cases r with
    | error e => exact hs
    | ok o =>
      cases o with
      | none => exact ih st1 c1 acc k hs
      | some rows => exact ih st1 c1 (acc ++ rows) k hs

theorem execute_fst_ok (g : Gateway) (u : Nat → String) (prog : Program)
    (st : InterpState) (c : Nat) :
    (execute g u (.ok prog) st c).1 =
      (runStatements g u prog.statements { st with aliases := [] } c []).1 := by
  simp only [execute]
  rcases runStatements g u prog.statements { st with aliases := [] } c [] with ⟨⟨st1, c1⟩, r⟩
  cases r <;> rfl

end ComplexDSL

namespace ComplexDSL

/-! ### Claim theorems -/

/-- C1: In every `execute` call the alias table is cleared before any
statement runs while the schema registry is untouched: (a) the result and
final state of an `execute` call are independent of whatever alias table
the instance carried beforehand; (b) entity and relationship definitions
registered before the call are still registered after it; (c) an alias
bound during an earlier `execute` call is unresolvable in a later call —
an UPDATE targeting any alias as the first statement of a script fails
with SemanticError "Unknown alias: ..." whatever the prior alias table
contained. -/
theorem C1_execute_session_state (g : Gateway) (u : Nat → String)
    (prog : Program) (st : InterpState) (c : Nat) :
    (∀ al : PyDict PyVal,
      execute g u (.ok prog) st c =
        execute g u (.ok prog) { st with aliases := al } c) ∧
    (∀ k : String, pyDictContains st.entities k = true →
      pyDictContains (execute g u (.ok prog) st c).1.1.entities k = true) ∧
    (∀ k : String, pyDictContains st.relationships k = true →
      pyDictContains (execute g u (.ok prog) st c).1.1.relationships k = true) ∧
    (∀ (a : String) (assigns : List Assignment) (rest : List Statement),
      (execute g u (.ok ⟨Statement.updateStmt
          ⟨⟨"alias", RefVal.strRef a, none, none⟩, assigns⟩ :: rest⟩) st c).2 =
        .error (.semanticErr ("Unknown alias: " ++ a))) := by
  refine ⟨fun al => rfl, ?_, ?_, ?_⟩
  · intro k h
    rw [execute_fst_ok]
    exact runStatements_entities_mono g u prog.statements _ c [] k h
  · intro k h
    rw [execute_fst_ok]
    exact runStatements_relationships_mono g u prog.statements _ c [] k h
  · intro a assigns rest
    have h1 : execStatement g u
        (.updateStmt ⟨⟨"alias", RefVal.strRef a, none, none⟩, assigns⟩)
        { st with aliases := [] } c =
        (({ st with aliases := [] }, c),
          .error (.semanticErr ("Unknown alias: " ++ a))) := by
      simp [execStatement, execUpdateStmt, targetWhereClause, pyDictGetD, pyDictGet,
        PyVal.isNone, refStr]
    simp [execute, runStatements, h1, wrapErr]

/-- Witness for C1 at a concrete instance: `Foo` registered by an earlier
call is still registered after executing `ENTITY Foo { x: STRING };`
again on a fresh gateway. -/
theorem C1_execute_session_state_witness :
    pyDictContains stWithFoo.entities "Foo" = true ∧
    pyDictContains
      (execute gOK0 uuidGen0 (.ok progFoo) stWithFoo 0).1.1.entities "Foo" = true := by
  have h := C1_execute_session_state gOK0 uuidGen0 progFoo stWithFoo 0
  exact ⟨rfl, h.2.1 "Foo" rfl⟩

end ComplexDSL

namespace ComplexDSL

/-- C2 counterexample: the claim "the first error raised while executing
the statement list ... is handed to the caller unmodified" fails on the
code. On a gateway whose create-label op fails with a ConnectionError
("db down"), executing `ENTITY Foo { x: STRING };` raises
`ExecutionError("Unexpected execution error: db down")` — a different
error object and class than the one raised. -/
theorem C2_unmodified_counterexample :
    (execute gConnDown uuidGen0 (.ok progFoo) st0 0).2 =
        .error (.executionErr "Unexpected execution error: db down") ∧
    gConnDown (createLabelQuery fooDef) = .error (.connectionErr "db down") ∧
    (CErr.executionErr "Unexpected execution error: db down" ≠
      CErr.connectionErr "db down") := by
  refine ⟨rfl, rfl, by decide⟩

/-- C2 amended: every failure of `execute` is one of ParseError,
SemanticError or ExecutionError (never a ConnectionError); the first
error raised while executing the statement list immediately aborts all
remaining statements (the outcome does not depend on them); a
SemanticError or ExecutionError is handed to the caller unmodified, while
any other first error is wrapped into an ExecutionError carrying the
original error's text. -/
theorem C2_failure_taxonomy (g : Gateway) (u : Nat → String)
    (parsed : Except String Program) (st : InterpState) (c : Nat) :
    (∀ m : String, (execute g u parsed st c).2 ≠ .error (.connectionErr m)) ∧
    (∀ (s : Statement) (rest₁ rest₂ : List Statement) (st' : InterpState)
       (c' : Nat) (e : CErr) (acc : List Row),
      execStatement g u s st c = ((st', c'), .error e) →
      runStatements g u (s :: rest₁) st c acc = ((st', c'), .error e) ∧
      runStatements g u (s :: rest₁) st c acc =
        runStatements g u (s :: rest₂) st c acc) ∧
    (∀ (s : Statement) (rest : List Statement) (st' : InterpState) (c' : Nat)
       (e : CErr),
      execStatement g u s { st with aliases := [] } c = ((st', c'), .error e) →
      (execute g u (.ok ⟨s :: rest⟩) st c).2 = .error (wrapErr e)) ∧
    (∀ m, wrapErr (.semanticErr m) = .semanticErr m) ∧
    (∀ m, wrapErr (.executionErr m) = .executionErr m) ∧
    (∀ m, wrapErr (.connectionErr m) =
      .executionErr ("Unexpected execution error: " ++ m)) ∧
    (∀ m, wrapErr (.parseErr m) =
      .executionErr ("Unexpected execution error: Parse error: " ++ m)) := by
  refine ⟨?_, ?_, ?_, fun m => rfl, fun m => rfl, fun m => rfl, fun m => rfl⟩
  · intro m
    cases parsed with
    | error pm => simp [execute]
    | ok prog =>
      simp only [execute]
      rcases runStatements g u prog.statements { st with aliases := [] } c []
        with ⟨⟨st1, c1⟩, r⟩
      cases r with
      | ok rows => simp
      | error e => cases e <;> simp [wrapErr]
  · intro s rest₁ rest₂ st' c' e acc h
    constructor <;> simp [runStatements, h]
  · intro s rest st' c' e h
    simp [execute, runStatements, h]

/-- Witness for C2 at a concrete instance: the unbound-alias UPDATE as
first statement makes `execute` fail with exactly the wrapped (here:
unmodified SemanticError) first error. -/
theorem C2_failure_taxonomy_witness :
    (execute gOK0 uuidGen0 (.ok ⟨[Statement.updateStmt updMissing]⟩) st0 0).2 =
      .error (wrapErr (.semanticErr "Unknown alias: missing_alias")) := by
  have h := C2_failure_taxonomy gOK0 uuidGen0 (.ok progFoo) st0 0
  exact h.2.2.1 (Statement.updateStmt updMissing) [] { st0 with aliases := [] } 0
    (.semanticErr "Unknown alias: missing_alias") rfl

end ComplexDSL

namespace ComplexDSL

/-- C3: an INSERT whose entity type is not registered fails with
SemanticError "Unknown entity type: ..."; a CONNECT whose relationship is
not registered fails with SemanticError "Unknown relationship type: ..."
— for every from/to reference and every alias table, i.e. the
relationship check precedes reference resolution. Both errors surface
unchanged from a full `execute` call. -/
theorem C3_unknown_schema_errors (g : Gateway) (u : Nat → String)
    (st : InterpState) (c : Nat) :
    (∀ s : InsertEntity, pyDictContains st.entities s.entity_type = false →
      execInsertEntity g u s st c =
        ((st, c), .error (.semanticErr ("Unknown entity type: " ++ s.entity_type)))) ∧
    (∀ s : ConnectRel, pyDictContains st.relationships s.relationship = false →
      execConnectRel g s st =
        (st, .error (.semanticErr ("Unknown relationship type: " ++ s.relationship)))) ∧
    (∀ (s : InsertEntity) (rest : List Statement),
      pyDictContains st.entities s.entity_type = false →
      (execute g u (.ok ⟨Statement.insertEntity s :: rest⟩) st c).2 =
        .error (.semanticErr ("Unknown entity type: " ++ s.entity_type))) ∧
    (∀ (s : ConnectRel) (rest : List Statement),
      pyDictContains st.relationships s.relationship = false →
      (execute g u (.ok ⟨Statement.connectRel s :: rest⟩) st c).2 =
        .error (.semanticErr ("Unknown relationship type: " ++ s.relationship))) := by
  refine ⟨?_, ?_, ?_, ?_⟩
  · intro s h
    simp [execInsertEntity, h]
  · intro s h
    simp [execConnectRel, h]
  · intro s rest h
    have h1 : execStatement g u (.insertEntity s) { st with aliases := [] } c =
        (({ st with aliases := [] }, c),
          .error (.semanticErr ("Unknown entity type: " ++ s.entity_type))) := by
      simp [execStatement, execInsertEntity, h]
    simp [execute, runStatements, h1, wrapErr]
  · intro s rest h
    have h1 : execStatement g u (.connectRel s) { st with aliases := [] } c =
        (({ st with aliases := [] }, c),
          .error (.semanticErr ("Unknown relationship type: " ++ s.relationship))) := by
      simp [execStatement, execConnectRel, h]
    simp [execute, runStatements, h1, wrapErr]

/-- Witness for C3: `INSERT Ghost { x = 1 };` and `CONNECT a - NOPE -> b;`
on a fresh interpreter. -/
theorem C3_unknown_schema_errors_witness :
    pyDictContains st0.entities "Ghost" = false ∧
    pyDictContains st0.relationships "NOPE" = false ∧
    (execute gOK0 uuidGen0 (.ok ⟨[Statement.insertEntity ghostInsert]⟩) st0 0).2 =
      .error (.semanticErr "Unknown entity type: Ghost") ∧
    (execute gOK0 uuidGen0 (.ok ⟨[Statement.connectRel nopeConnect]⟩) st0 0).2 =
      .error (.semanticErr "Unknown relationship type: NOPE") := by
  have h := C3_unknown_schema_errors gOK0 uuidGen0 st0 0
  exact ⟨rfl, rfl, h.2.2.1 ghostInsert [] rfl, h.2.2.2 nopeConnect [] rfl⟩

end ComplexDSL

namespace ComplexDSL

/-- C4: target-reference resolution. A numeric reference is used directly
as the vertex identifier (in `_resolve_reference` and in UPDATE/DELETE
"id" targets); a string reference that is not bound in the alias table
raises SemanticError "Unknown alias: <name>" (in `_resolve_reference` and
in UPDATE/DELETE alias targets); in particular
`UPDATE missing_alias SET x = 1;` under the empty alias table every
`execute` call starts from raises
SemanticError "Unknown alias: missing_alias". -/
theorem C4_reference_resolution (g : Gateway) (st : InterpState) :
    (∀ (al : PyDict PyVal) (n : Int),
      resolveReference al (.intRef n) = .ok (.vInt n)) ∧
    (∀ (al : PyDict PyVal) (s : String), pyDictContains al s = false →
      resolveReference al (.strRef s) =
        .error (.semanticErr ("Unknown alias: " ++ s))) ∧
    (∀ (al : PyDict PyVal) (t : TargetRef), t.type = "id" →
      targetWhereClause al t = .ok ("id(n) = " ++ refStr t.value)) ∧
    (∀ (al : PyDict PyVal) (sa : String) (et : Option String)
       (cond : Option Condition),
      pyDictContains al sa = false →
      targetWhereClause al ⟨"alias", .strRef sa, et, cond⟩ =
        .error (.semanticErr ("Unknown alias: " ++ sa))) ∧
    (∀ (assigns : List Assignment) (sa : String) (et : Option String)
       (cond : Option Condition),
      pyDictContains st.aliases sa = false →
      (execUpdateStmt g ⟨⟨"alias", .strRef sa, et, cond⟩, assigns⟩ st).2 =
        .error (.semanticErr ("Unknown alias: " ++ sa))) ∧
    (∀ (sa : String) (et : Option String) (cond : Option Condition),
      pyDictContains st.aliases sa = false →
      (execDeleteStmt g ⟨⟨"alias", .strRef sa, et, cond⟩⟩ st).2 =
        .error (.semanticErr ("Unknown alias: " ++ sa))) ∧
    (∀ (u : Nat → String) (c : Nat) (rest : List Statement),
      (execute g u (.ok ⟨Statement.updateStmt updMissing :: rest⟩) st c).2 =
        .error (.semanticErr "Unknown alias: missing_alias")) := by
  have htw : ∀ (al : PyDict PyVal) (sa : String) (et : Option String)
      (cond : Option Condition), pyDictContains al sa = false →
      targetWhereClause al ⟨"alias", .strRef sa, et, cond⟩ =
        .error (.semanticErr ("Unknown alias: " ++ sa)) := by
    intro al sa et cond h
    simp [targetWhereClause, pyDictGetD, pyDictGet_eq_none_of_not_contains al sa h,
      PyVal.isNone, refStr]
  refine ⟨fun al n => rfl, ?_, ?_, htw, ?_, ?_, ?_⟩
  · intro al s h
    simp [resolveReference, h]
  · intro al t h
    simp [targetWhereClause, h]
  · intro assigns sa et cond h
    simp [execUpdateStmt, htw st.aliases sa et cond h]
  · intro sa et cond h
    simp [execDeleteStmt, htw st.aliases sa et cond h]
  · intro u c rest
    have h1 : execStatement g u (.updateStmt updMissing) { st with aliases := [] } c =
        (({ st with aliases := [] }, c),
          .error (.semanticErr "Unknown alias: missing_alias")) := by
      simp [execStatement, execUpdateStmt, updMissing, targetWhereClause,
        pyDictGetD, pyDictGet, PyVal.isNone, refStr]
    simp [execute, runStatements, h1, wrapErr]

/-- Witness for C4: a numeric reference resolves to itself, an unbound
string reference fails, and `UPDATE missing_alias SET x = 1;` fails with
"Unknown alias: missing_alias" on a fresh interpreter. -/
theorem C4_reference_resolution_witness :
    resolveReference ([] : PyDict PyVal) (.intRef 7) = .ok (.vInt 7) ∧
    resolveReference ([] : PyDict PyVal) (.strRef "ghost") =
      .error (.semanticErr "Unknown alias: ghost") ∧
    (execute gOK0 uuidGen0 (.ok ⟨[Statement.updateStmt updMissing]⟩) st0 0).2 =
      .error (.semanticErr "Unknown alias: missing_alias") := by
  have h := C4_reference_resolution gOK0 st0
  exact ⟨h.1 [] 7, h.2.1 [] "ghost" rfl, h.2.2.2.2.2.2 uuidGen0 0 []⟩

end ComplexDSL

namespace ComplexDSL

/-- C5: an EntityDef statement always registers the definition in the
schema registry and emits the create-label operation; exactly the
ExecutionError failure class of that operation (the class the
"label already exists" failure maps to) is swallowed and any other
failure propagates unmodified; consequently, on a gateway whose failures
are all of that class, executing the same ENTITY statement twice in one
session never raises. -/
theorem C5_entity_def_registration (g : Gateway) (u : Nat → String)
    (st : InterpState) (c : Nat) (d : EntityDef) :
    (execEntityDef g d st).1 =
      { st with entities := pyDictSet st.entities d.name d,
                trace := st.trace ++ [createLabelQuery d] } ∧
    (execEntityDef g d st).2 =
      (match g (createLabelQuery d) with
       | .ok _ => .ok none
       | .error (.executionErr _) => .ok none
       | .error e => .error e) ∧
    ((∀ q e, g q = .error e → ∃ m, e = .executionErr m) →
      (execute g u (.ok ⟨[Statement.entityDef d, Statement.entityDef d]⟩) st c).2 =
        .ok []) := by
  refine ⟨execEntityDef_fst g d st, ?_, ?_⟩
  · simp only [execEntityDef, runCypher]
    rcases hq : g (createLabelQuery d) with e | v
    · cases e <;> rfl
    · rfl
  · intro hg
    have h2 : ∀ st' : InterpState, (execEntityDef g d st').2 = .ok none := by
      intro st'
      simp only [execEntityDef, runCypher]
      rcases hq : g (createLabelQuery d) with e | v
      · rcases hg _ e hq with ⟨m, rfl⟩
        rfl
      · rfl
    have h3 : ∀ st' : InterpState, execStatement g u (.entityDef d) st' c =
        (((execEntityDef g d st').1, c), .ok none) := by
      intro st'
      rw [← h2 st']
      rfl
    simp [execute, runStatements, h3]

/-- Witness for C5: `ENTITY Foo { x: STRING };` twice on a gateway whose
create-label op always fails with the "label already exists"
ExecutionError class — the script still succeeds. -/
theorem C5_entity_def_registration_witness :
    (execute gLabelExists uuidGen0 (.ok progFooTwice) st0 0).2 = .ok [] := by
  have h := C5_entity_def_registration gLabelExists uuidGen0 st0 0 fooDef
  exact h.2.2 (fun q e hq => ⟨"label already exists", (Except.error.inj hq).symm⟩)

end ComplexDSL

namespace ComplexDSL

/-- Left-to-right operator joining: the operator loop of
`_build_condition_clause` consumes operators and remaining condition
strings pairwise in order. -/
theorem joinWithOperators_zip (ops : List String) :
    ∀ (ps : List String) (acc : String), ops.length = ps.length →
      joinWithOperators acc ps ops =
        (List.zip ops ps).foldl (fun a q => a ++ " " ++ q.1 ++ " " ++ q.2) acc := by
  induction ops with
  | nil =>
    intro ps acc h
    cases ps with
    | nil => rfl
    | cons p ps' => simp at h
  | cons op ops' ih =>
    intro ps acc h
    cases ps with
    | nil => simp at h
    | cons p ps' =>
      simp only [List.length_cons, Nat.add_right_cancel_iff] at h
      simp only [joinWithOperators, List.zip_cons_cons, List.foldl_cons]
      exact ih ps' _ h

/-- C6 counterexample: for the QueryStatement
`MATCH (n:T) WHERE n.a = 1 OR n.b = 2;` — whose condition carries the
operator list `["OR"]` — the emitted filter clause joins the two
predicates with AND, not with the condition's operator list (which
`_build_condition_clause`, used only by UPDATE/DELETE pattern targets,
would have produced). -/
theorem C6_where_clause_join_counterexample :
    queryStmtText queryOr0 = .ok "MATCH (n:T) WHERE n.a = 1 AND n.b = 2 RETURN *" ∧
    buildConditionClause (some orCond0) "n" = "n.a = 1 OR n.b = 2" ∧
    ("MATCH (n:T) WHERE n.a = 1 AND n.b = 2 RETURN *" ≠
      "MATCH (n:T) WHERE n.a = 1 OR n.b = 2 RETURN *") :=
  ⟨rfl, rfl, by decide⟩

/-- C6 amended: the filter clause emitted for a QueryStatement's WHERE
joins all property-equality predicates with " AND ", ignoring the
condition's operator list; the AND/OR operator list is honored — applied
to consecutive conditions left-to-right — only by the condition clause
built for UPDATE/DELETE pattern targets. -/
theorem C6_where_clause_join (c : Condition) (node_alias : String) :
    (c.conditions ≠ [] →
      queryWhereClause (some c) =
        "WHERE " ++ String.intercalate " AND "
          (c.conditions.map (fun pc => buildPropertyCondition pc "n"))) ∧
    (∀ (p : PropertyCondition) (ps : List PropertyCondition) (ops : List String),
      ops.length = ps.length →
      buildConditionClause (some ⟨p :: ps, ops⟩) node_alias =
        (List.zip ops (ps.map (fun pc => buildPropertyCondition pc node_alias))).foldl
          (fun acc q => acc ++ " " ++ q.1 ++ " " ++ q.2)
          (buildPropertyCondition p node_alias)) := by
  constructor
  · intro h
    cases hc : c.conditions with
    | nil => exact absurd hc h
    | cons pc pcs => simp [queryWhereClause, hc]
  · intro p ps ops h
    cases ops with
    | nil =>
      cases ps with
      | nil => rfl
      | cons q qs => simp at h
    | cons op ops' =>
      simp only [buildConditionClause, List.map_cons]
      exact joinWithOperators_zip (op :: ops') (ps.map _) _ (by simpa using h)

/-- Witness for C6 at the OR condition: the query WHERE clause uses AND,
the UPDATE/DELETE condition clause uses the operator list. -/
theorem C6_where_clause_join_witness :
    queryWhereClause (some orCond0) = "WHERE n.a = 1 AND n.b = 2" ∧
    buildConditionClause (some orCond0) "n" = "n.a = 1 OR n.b = 2" := by
  have h := C6_where_clause_join orCond0 "n"
  refine ⟨(h.1 (by simp [orCond0])).trans rfl, ?_⟩
  exact (h.2 { property := "a", value := { value := PyVal.vInt 1, type := "number" } }
    [{ property := "b", value := { value := PyVal.vInt 2, type := "number" } }]
    ["OR"] rfl).trans rfl

end ComplexDSL

namespace ComplexDSL

/-- C7 evaluation at the failing input: an omitted direction defaults to
"bidirectional" and a left-pointing arrow is carried into the backward
tag "<-", and forward and bidirectional edges serialize with the stated
arrowhead placement — but a backward edge is emitted as "<-[]" with no
trailing dash, so the match clause for `(a:A)<-[]-(b:B)` comes out as
"MATCH (a:A)<-[](b:B)" instead of a left-arrowhead edge
"MATCH (a:A)<-[]-(b:B)". -/
theorem C7_direction_serialization :
    edgePat [] none =
      { relationship := none, condition := none, direction := "bidirectional" } ∧
    directionOf [] = "bidirectional" ∧
    edgePat [] (some (directionOf [leftArrowToken])) =
      { relationship := none, condition := none, direction := "<-" } ∧
    buildMatchClause patFwd0 = .ok "MATCH (a:A)-[]->(b:B)" ∧
    buildMatchClause patBidi0 = .ok "MATCH (a:A)-[]-(b:B)" ∧
    buildMatchClause patBack0 = .ok "MATCH (a:A)<-[](b:B)" ∧
    ("MATCH (a:A)<-[](b:B)" ≠ "MATCH (a:A)<-[]-(b:B)") :=
  ⟨rfl, rfl, rfl, rfl, rfl, rfl, by decide⟩

end ComplexDSL

namespace ComplexDSL

/-- A fully-connected chain passes the `valid_items` filter unchanged. -/
theorem validItems_chain (l : List TransItem) (h : IsChain l) : validItems l = l := by
  induction h with
  | single n => rfl
  | cons n e h' ih =>
    simp only [validItems, List.filter] at ih ⊢
    rw [ih]

/-- Over `edge :: chain`, the paired index loop of the pattern callback
collects exactly as many edges as nodes. -/
theorem patternPairs_chain (l : List TransItem) (h : IsChain l) :
    ∀ e : EdgePattern, (patternPairs (TransItem.edge e :: l)).1.length =
      (patternPairs (TransItem.edge e :: l)).2.length := by
  induction h with
  | single n => intro e; rfl
  | cons n e' h' ih =>
    intro e
    simp only [patternPairs, List.length_cons]
    rw [ih e']

/-- C8: for every Pattern the transformer produces from a parsed
fully-connected chain (strict node/edge alternation starting and ending
with a node), the number of edges is the number of nodes minus one. -/
theorem C8_pattern_chain_invariant (items : List TransItem) (h : IsChain items) :
    (transformPattern items).edges.length =
      (transformPattern items).nodes.length - 1 := by
  cases h with
  | single n => rfl
  | cons n e h' =>
    rename_i rest
    have hrest := validItems_chain rest h'
    simp only [validItems] at hrest
    have hv : validItems (TransItem.node n :: TransItem.edge e :: rest) =
        TransItem.node n :: TransItem.edge e :: rest := by
      simp only [validItems, List.filter]
      rw [hrest]
    simp only [transformPattern, hv]
    simp only [List.singleton_append, List.length_cons, Nat.add_sub_cancel]
    exact patternPairs_chain rest h' e

/-- Witness for C8 at the concrete chain `(a:A)-[]->(b:B)`. -/
theorem C8_pattern_chain_invariant_witness :
    IsChain chain3 ∧
    (transformPattern chain3).edges.length =
      (transformPattern chain3).nodes.length - 1 := by
  have hc : IsChain chain3 := .cons _ _ (.single _)
  exact ⟨hc, C8_pattern_chain_invariant chain3 hc⟩

end ComplexDSL

namespace ComplexDSL

/-- C9: `_execute_insert_entity` synthesizes a fresh identifier and writes
it under the property key "id" after all user assignments are placed, so
whatever the assignments bind to "id" beforehand, the property map behind
the emitted create-node query carries the synthesized identifier, and the
dispatched query text is the create-node query over exactly that map. -/
theorem C9_insert_id_overwrite (g : Gateway) (u : Nat → String)
    (st : InterpState) (c : Nat) (s : InsertEntity) :
    (∀ (aliases : PyDict PyVal) (assigns : List Assignment) (vid : String),
      pyDictGet (buildInsertProps aliases assigns vid) "id" = some (.vStr vid)) ∧
    (pyDictContains st.entities s.entity_type = true →
      (execInsertEntity g u s st c).1.1.trace =
        st.trace ++ [insertQuery s.entity_type
          (buildInsertProps st.aliases s.assignments (u c))]) := by
  constructor
  · intro aliases assigns vid
    exact pyDictGet_set_self _ "id" (PyVal.vStr vid)
  · intro h
    simp only [execInsertEntity, runCypher]
    rw [if_neg (by simp [h])]
    repeat' split
    all_goals simp

/-- Witness for C9: inserting `Foo { id = 999 }` emits a create-node
query whose "id" is the synthesized uuid, not 999. -/
theorem C9_insert_id_overwrite_witness :
    pyDictContains stWithFoo.entities "Foo" = true ∧
    (execInsertEntity gOK0 uuidGen0 insertWithId stWithFoo 0).1.1.trace =
      ["CREATE (n:Foo \x7b\"id\": \"uuid-0\"\x7d) RETURN id(n)"] := by
  have h := C9_insert_id_overwrite gOK0 uuidGen0 stWithFoo 0 insertWithId
  exact ⟨rfl, (h.2 rfl).trans rfl⟩

end ComplexDSL

namespace ComplexDSL

/-- No statement executor reads the edge-reference flag: executing any
statement from a state whose flag is overridden gives the overridden-flag
version of the original outcome. -/
theorem execStatement_flag (g : Gateway) (u : Nat → String) (s : Statement) :
    ∀ (st : InterpState) (c : Nat) (b : Bool),
      execStatement g u s { st with edge_references := b } c =
        (({ (execStatement g u s st c).1.1 with edge_references := b },
          (execStatement g u s st c).1.2), (execStatement g u s st c).2) := by
  intro st c b
  obtain ⟨fl, en, rel, al, tr⟩ := st
  cases s
  all_goals
    simp only [execStatement, execEntityDef, execRelationshipDef, execInsertEntity,
      execConnectRel, execUpdateStmt, execDeleteStmt, execQueryStmt, runCypher]
    repeat' split
  all_goals rfl

/-- The statement loop never reads the edge-reference flag either. -/
theorem runStatements_flag (g : Gateway) (u : Nat → String) (l : List Statement) :
    ∀ (st : InterpState) (c : Nat) (acc : List Row) (b : Bool),
      runStatements g u l { st with edge_references := b } c acc =
        (({ (runStatements g u l st c acc).1.1 with edge_references := b },
          (runStatements g u l st c acc).1.2), (runStatements g u l st c acc).2) := by
  induction l with
  | nil => intro st c acc b; rfl
  | cons s rest ih =>
    intro st c acc b
    simp only [runStatements, execStatement_flag g u s st c b]
    rcases hr : execStatement g u s st c with ⟨⟨st1, c1⟩, r⟩
    cases r with
    | error e => rfl
    | ok o =>
      cases o with
      | none => exact ih st1 c1 acc b
      | some rows => exact ih st1 c1 (acc ++ rows) b

/-- `execute` commutes with overriding the edge-reference flag. -/
theorem execute_flag (g : Gateway) (u : Nat → String) (parsed : Except String Program)
    (st : InterpState) (c : Nat) (b : Bool) :
    execute g u parsed { st with edge_references := b } c =
      (({ (execute g u parsed st c).1.1 with edge_references := b },
        (execute g u parsed st c).1.2), (execute g u parsed st c).2) := by
  cases parsed with
  | error m => rfl
  | ok prog =>
    simp only [execute]
    have h := runStatements_flag g u prog.statements { st with aliases := [] } c [] b
    rw [show ({ st with edge_references := b, aliases := [] } : InterpState) =
      { ({ st with aliases := [] } : InterpState) with edge_references := b } from rfl]
    rw [h]
    rcases runStatements g u prog.statements { st with aliases := [] } c []
      with ⟨⟨st1, c1⟩, r⟩
    cases r <;> rfl

/-- C10: two-run equivalence over the edge-reference configuration flag.
Two runs of the same script on interpreter states differing only in the
flag read at construction return the same rows or error, consume the same
identifier stream, dispatch identical query text to the gateway (equal
traces), and end with identical schema registries and alias tables. -/
theorem C10_edge_flag_two_run_equivalence (g : Gateway) (u : Nat → String)
    (parsed : Except String Program) (st : InterpState) (c : Nat) (b1 b2 : Bool) :
    (execute g u parsed { st with edge_references := b1 } c).2 =
      (execute g u parsed { st with edge_references := b2 } c).2 ∧
    (execute g u parsed { st with edge_references := b1 } c).1.2 =
      (execute g u parsed { st with edge_references := b2 } c).1.2 ∧
    (execute g u parsed { st with edge_references := b1 } c).1.1.trace =
      (execute g u parsed { st with edge_references := b2 } c).1.1.trace ∧
    (execute g u parsed { st with edge_references := b1 } c).1.1.entities =
      (execute g u parsed { st with edge_references := b2 } c).1.1.entities ∧
    (execute g u parsed { st with edge_references := b1 } c).1.1.relationships =
      (execute g u parsed { st with edge_references := b2 } c).1.1.relationships ∧
    (execute g u parsed { st with edge_references := b1 } c).1.1.aliases =
      (execute g u parsed { st with edge_references := b2 } c).1.1.aliases := by
  rw [execute_flag g u parsed st c b1, execute_flag g u parsed st c b2]
  exact ⟨rfl, rfl, rfl, rfl, rfl, rfl⟩

end ComplexDSL
